import Mathlib

/-
Verification of the decision-feedback core of the emini scalping bot.

Each section is a shallow embedding of one Python component, translated
directly from the source:
  * Calibrator     — src/gpt/confidence_calibrator.py  (ConfidenceCalibrator)
  * Wilson         — the `_wilson_interval` helper shared by
                     src/learning/pattern_memory.py and src/learning/hard_negatives.py
  * RateLimiter    — src/gpt/rate_limiter.py
  * CostOptimizer  — src/prefilter/cost_optimizer.py
  * PatternMemory  — src/learning/pattern_memory.py
  * HardNegatives  — src/learning/hard_negatives.py
  * Simulator      — src/simulation/realistic_sim.py  (RealisticSimulator)

Python floats are modelled as rationals (ℚ) except where the code takes a
square root (the Wilson interval), which is modelled over ℝ.  Timestamps are
modelled as integers (UTC day ordinals, or minutes where the code works at
sub-day granularity); `datetime.now` becomes an explicit `now` parameter.
-/

namespace Emini

/-! ### Confidence calibrator (src/gpt/confidence_calibrator.py) -/

namespace Calibrator

/-- Calibrator state: `current_floor`, the bounded trade history
(`deque(maxlen=50)`, `true` = win, most recent last) and the UTC date of the
last daily reset. -/
structure CalibState where
  current_floor : ℤ
  trade_history : List Bool
  last_reset_date : ℤ
deriving Repr, DecidableEq

/-- Config value `gpt.confidence_min` (85 per the source comments). -/
def base_confidence_min : ℤ := 85

/-- Config value `gpt.floor_min` (82 per the source comments). -/
def floor_min : ℤ := 82

/-- Config value `gpt.floor_max` (92 per the source comments). -/
def floor_max : ℤ := 92

/-- `self.adjustment_step = 2`. -/
def adjustment_step : ℤ := 2

/-- `self.low_win_rate_threshold = 78.0`. -/
def low_win_rate_threshold : ℚ := 78

/-- `self.high_win_rate_threshold = 85.0`. -/
def high_win_rate_threshold : ℚ := 85

/-- `ConfidenceCalibrator._check_daily_reset`: on a UTC date change the floor
returns to base; the trade history is kept. -/
def checkDailyReset (s : CalibState) (current_date : ℤ) : CalibState :=
  if s.last_reset_date < current_date then
    { s with current_floor := base_confidence_min, last_reset_date := current_date }
  else s

/-- Last `n` elements of a list (the tail of a bounded deque). -/
def takeLast (n : ℕ) (l : List Bool) : List Bool := l.drop (l.length - n)

/-- Number of wins in a window. -/
def winCount (l : List Bool) : ℕ := (l.filter (fun b => b)).length

/-- The trailing-20 win rate in percent: `(wins / 20) * 100`. -/
def trailingWinRate (hist : List Bool) : ℚ :=
  ((winCount (takeLast 20 hist) : ℚ) / 20) * 100

/-- A floor adjustment event (`CalibrationEvent`, restricted to the floor
fields the claims use). -/
structure CalibEvent where
  old_floor : ℤ
  new_floor : ℤ
deriving Repr, DecidableEq

/-- The two guarded adjustment branches of
`ConfidenceCalibrator.record_trade_result` (source lines 102–128): raise when
the trailing win rate is low and the floor is below `floor_max`, lower when
it is high and the floor is above `floor_min`, otherwise leave unchanged. -/
def adjustFloor (floor : ℤ) (win_rate : ℚ) : ℤ × Option CalibEvent :=
  if win_rate < low_win_rate_threshold ∧ floor < floor_max then
    (min floor_max (floor + adjustment_step),
     some { old_floor := floor, new_floor := min floor_max (floor + adjustment_step) })
  else if high_win_rate_threshold ≤ win_rate ∧ floor_min < floor then
    (max floor_min (floor - adjustment_step),
     some { old_floor := floor, new_floor := max floor_min (floor - adjustment_step) })
  else (floor, none)

/-- `ConfidenceCalibrator.record_trade_result`: run the daily reset check,
append the outcome to the bounded history; with fewer than 20 recorded trades
do nothing; otherwise adjust the floor from the trailing-20 win rate. -/
def record_trade_result (s : CalibState) (is_win : Bool) (date : ℤ) :
    CalibState × Option CalibEvent :=
  let s1 := checkDailyReset s date
  let hist := takeLast 50 (s1.trade_history ++ [is_win])
  if hist.length < 20 then ({ s1 with trade_history := hist }, none)
  else
    let r := adjustFloor s1.current_floor (trailingWinRate hist)
    ({ s1 with trade_history := hist, current_floor := r.1 }, r.2)

theorem adjustFloor_rule (floor : ℤ) (wr : ℚ)
    (hlo : 82 ≤ floor) (hhi : floor ≤ 92) :
    (adjustFloor floor wr).1 =
      (if wr < 78 then min 92 (floor + 2)
       else if 85 ≤ wr then max 82 (floor - 2)
       else floor) ∧
    ((adjustFloor floor wr).1 - floor).natAbs ≤ 2 := by
  unfold adjustFloor
  unfold low_win_rate_threshold high_win_rate_threshold floor_min floor_max adjustment_step
  by_cases h1 : wr < 78
  · by_cases h2 : floor < 92
    · rw [if_pos ⟨h1, h2⟩, if_pos h1]
      exact ⟨rfl, by omega⟩
    · rw [if_neg (by tauto), if_neg (by rintro ⟨h85, -⟩; linarith), if_pos h1]
      constructor
      · omega
      · omega
  · rw [if_neg (by tauto), if_neg h1]
    by_cases h2 : (85 : ℚ) ≤ wr
    · by_cases h3 : (82 : ℤ) < floor
      · rw [if_pos ⟨h2, h3⟩, if_pos h2]
        exact ⟨rfl, by omega⟩
      · rw [if_neg (by tauto), if_pos h2]
        constructor
        · omega
        · omega
    · rw [if_neg (by tauto), if_neg h2]
      exact ⟨rfl, by omega⟩

theorem record_floor_step (s : CalibState) (w : Bool) (d : ℤ)
    (hd : d ≤ s.last_reset_date)
    (hlen : 19 ≤ s.trade_history.length) :
    (record_trade_result s w d).1.current_floor =
      (adjustFloor s.current_floor
        (trailingWinRate (takeLast 50 (s.trade_history ++ [w])))).1 := by
  have hreset : checkDailyReset s d = s := by
    unfold checkDailyReset
    rw [if_neg (by omega)]
  have hlen2 : ¬ (takeLast 50 (s.trade_history ++ [w])).length < 20 := by
    unfold takeLast
    simp only [List.length_drop, List.length_append, List.length_singleton]
    omega
  unfold record_trade_result
  rw [hreset]
  simp only [hlen2, if_false]

/-- A state holding 19 prior trades (13 wins, 6 losses) at the base floor;
recording one more win gives a trailing-20 window of 14 wins / 6 losses. -/
def exampleState14 : CalibState :=
  { current_floor := 85,
    trade_history := List.replicate 13 true ++ List.replicate 6 false,
    last_reset_date := 0 }

/-- A state holding 19 prior trades (17 wins, 2 losses) at the base floor;
recording one more win gives a trailing-20 window of 18 wins / 2 losses. -/
def exampleState18 : CalibState :=
  { current_floor := 85,
    trade_history := List.replicate 17 true ++ List.replicate 2 false,
    last_reset_date := 0 }

/-- C2: once the trade history holds at least 20 trades, each
`record_trade_result` call (on an unchanged UTC date) makes at most one floor
adjustment, following the rule: trailing-20 win rate below 78 raises the
floor by 2 capped at 92; at or above 85 lowers it by 2 floored at 82;
otherwise no change.  In particular, from base floor 85 a trailing-20 window
of 14 wins / 6 losses yields floor 87 after the 20th trade, and 18 wins / 2
losses yields floor 83. -/
theorem claim_C2_calibrator_rule :
    (∀ (s : CalibState) (w : Bool) (d : ℤ),
      d ≤ s.last_reset_date →
      82 ≤ s.current_floor → s.current_floor ≤ 92 →
      19 ≤ s.trade_history.length →
      (record_trade_result s w d).1.current_floor =
        (if trailingWinRate (takeLast 50 (s.trade_history ++ [w])) < 78 then
          min 92 (s.current_floor + 2)
        else if 85 ≤ trailingWinRate (takeLast 50 (s.trade_history ++ [w])) then
          max 82 (s.current_floor - 2)
        else s.current_floor) ∧
      ((record_trade_result s w d).1.current_floor - s.current_floor).natAbs ≤ 2) ∧
    (record_trade_result exampleState14 true 0).1.current_floor = 87 ∧
    (record_trade_result exampleState18 true 0).1.current_floor = 83 := by
  have main : ∀ (s : CalibState) (w : Bool) (d : ℤ),
      d ≤ s.last_reset_date →
      82 ≤ s.current_floor → s.current_floor ≤ 92 →
      19 ≤ s.trade_history.length →
      (record_trade_result s w d).1.current_floor =
        (if trailingWinRate (takeLast 50 (s.trade_history ++ [w])) < 78 then
          min 92 (s.current_floor + 2)
        else if 85 ≤ trailingWinRate (takeLast 50 (s.trade_history ++ [w])) then
          max 82 (s.current_floor - 2)
        else s.current_floor) ∧
      ((record_trade_result s w d).1.current_floor - s.current_floor).natAbs ≤ 2 := by
    intro s w d hd hlo hhi hlen
    rw [record_floor_step s w d hd hlen]
    exact adjustFloor_rule s.current_floor _ hlo hhi
  refine ⟨main, ?_, ?_⟩
  · have h := main exampleState14 true 0 (by decide) (by decide) (by decide) (by decide)
    have hwc : winCount (takeLast 20 (takeLast 50 (exampleState14.trade_history ++ [true]))) = 14 := by
      decide
    have hwr : trailingWinRate (takeLast 50 (exampleState14.trade_history ++ [true])) = 70 := by
      unfold trailingWinRate
      rw [hwc]
      norm_num
    rw [hwr] at h
    norm_num at h
    exact h.1
  · have h := main exampleState18 true 0 (by decide) (by decide) (by decide) (by decide)
    have hwc : winCount (takeLast 20 (takeLast 50 (exampleState18.trade_history ++ [true]))) = 18 := by
      decide
    have hwr : trailingWinRate (takeLast 50 (exampleState18.trade_history ++ [true])) = 90 := by
      unfold trailingWinRate
      rw [hwc]
      norm_num
    rw [hwr] at h
    norm_num at h
    exact h.1

/-- Witness for C2: the general rule instantiated on the concrete 19-trade
state, with the trailing-20 window of 14 wins / 6 losses. -/
theorem claim_C2_calibrator_rule_witness :
    (record_trade_result exampleState14 true 0).1.current_floor =
      (if trailingWinRate (takeLast 50 (exampleState14.trade_history ++ [true])) < 78 then
        min 92 (exampleState14.current_floor + 2)
      else if 85 ≤ trailingWinRate (takeLast 50 (exampleState14.trade_history ++ [true])) then
        max 82 (exampleState14.current_floor - 2)
      else exampleState14.current_floor) ∧
    ((record_trade_result exampleState14 true 0).1.current_floor -
      exampleState14.current_floor).natAbs ≤ 2 :=
  claim_C2_calibrator_rule.1 exampleState14 true 0 (by decide) (by decide) (by decide) (by decide)

end Calibrator

/-! ### Wilson interval (src/learning/pattern_memory.py `_wilson_interval`,
identical helper in src/learning/hard_negatives.py) -/

namespace Wilson

noncomputable section

/-- The default z value of the source function (`z = 1.96`). -/
def zDefault : ℝ := 1.96

/-- Center term of the Wilson score interval:
`(p + z²/(2 total)) / (1 + z²/total)`. -/
def wilsonCenter (wins total : ℕ) (z : ℝ) : ℝ :=
  ((wins / total : ℝ) + z ^ 2 / (2 * total)) / (1 + z ^ 2 / total)

/-- Margin term of the Wilson score interval:
`z * sqrt(p(1-p)/total + z²/(4 total²)) / (1 + z²/total)`. -/
def wilsonMargin (wins total : ℕ) (z : ℝ) : ℝ :=
  z * Real.sqrt ((wins / total : ℝ) * (1 - (wins / total : ℝ)) / total +
    z ^ 2 / (4 * total ^ 2)) / (1 + z ^ 2 / total)

/-- `_wilson_interval`: returns the clamped pair
`(max 0 (center - margin), min 1 (center + margin))`, and `(0, 0)` when
`total ≤ 0`. -/
def wilson_interval (wins total : ℕ) (z : ℝ) : ℝ × ℝ :=
  if total = 0 then (0, 0)
  else (max 0 (wilsonCenter wins total z - wilsonMargin wins total z),
        min 1 (wilsonCenter wins total z + wilsonMargin wins total z))

end

theorem wilson_center_sub_p (wins total : ℕ) (z : ℝ) (ht : 0 < (total : ℝ)) :
    wilsonCenter wins total z - (wins / total : ℝ) =
      (z ^ 2 / total) * (1 / 2 - (wins / total : ℝ)) / (1 + z ^ 2 / total) := by
  have hdenom : (1 : ℝ) + z ^ 2 / total ≠ 0 := by
    have : 0 ≤ z ^ 2 / (total : ℝ) := by positivity
    nlinarith
  unfold wilsonCenter
  field_simp
  ring

theorem wilson_margin_dominates (wins total : ℕ) (z : ℝ)
    (hw : wins ≤ total) (ht : 0 < total) (hz : 0 ≤ z) :
    |wilsonCenter wins total z - (wins / total : ℝ)| ≤ wilsonMargin wins total z := by
  have htR : 0 < (total : ℝ) := by exact_mod_cast ht
  have hp0 : 0 ≤ (wins / total : ℝ) := by positivity
  have hp1 : (wins / total : ℝ) ≤ 1 := by
    rw [div_le_one htR]
    exact_mod_cast hw
  set p : ℝ := (wins / total : ℝ) with hp
  have hdenom : (0 : ℝ) < 1 + z ^ 2 / total := by positivity
  rw [wilson_center_sub_p wins total z htR]
  unfold wilsonMargin
  rw [abs_div, abs_of_pos hdenom, div_le_div_iff_of_pos_right hdenom]
  rw [abs_mul, abs_of_nonneg (by positivity : (0:ℝ) ≤ z ^ 2 / total)]
  have key : |1 / 2 - p| ≤ Real.sqrt (1 / 4 - p * (1 - p)) := by
    have h1 : (1 / 2 - p) ^ 2 = 1 / 4 - p * (1 - p) := by ring
    rw [← h1, Real.sqrt_sq_eq_abs]
  have hpq : 0 ≤ p * (1 - p) := by nlinarith
  calc z ^ 2 / (total : ℝ) * |1 / 2 - p|
      ≤ z ^ 2 / total * Real.sqrt (1 / 4 - p * (1 - p)) := by
        apply mul_le_mul_of_nonneg_left key (by positivity)
    _ = z * Real.sqrt (z ^ 2 / total ^ 2 * (1 / 4 - p * (1 - p))) := by
        rw [Real.sqrt_mul (by positivity)]
        rw [show z ^ 2 / (total : ℝ) ^ 2 = (z / total) ^ 2 by ring]
        rw [Real.sqrt_sq_eq_abs, abs_of_nonneg (by positivity)]
        ring
    _ ≤ z * Real.sqrt (p * (1 - p) / total + z ^ 2 / (4 * total ^ 2)) := by
        apply mul_le_mul_of_nonneg_left _ hz
        apply Real.sqrt_le_sqrt
        have h4 : z ^ 2 / (total : ℝ) ^ 2 * (1 / 4 - p * (1 - p)) =
            z ^ 2 / (4 * total ^ 2) - z ^ 2 * (p * (1 - p)) / total ^ 2 := by ring
        rw [h4]
        have h5 : 0 ≤ z ^ 2 * (p * (1 - p)) / (total : ℝ) ^ 2 := by positivity
        have h6 : 0 ≤ p * (1 - p) / (total : ℝ) := by positivity
        linarith

theorem wilson_interval_bounds (wins total : ℕ) (z : ℝ)
    (hw : wins ≤ total) (ht : 0 < total) (hz : 0 ≤ z) :
    0 ≤ (wilson_interval wins total z).1 ∧
    (wilson_interval wins total z).1 ≤ (wins / total : ℝ) ∧
    (wins / total : ℝ) ≤ (wilson_interval wins total z).2 ∧
    (wilson_interval wins total z).2 ≤ 1 := by
  have htR : 0 < (total : ℝ) := by exact_mod_cast ht
  have hp0 : 0 ≤ (wins / total : ℝ) := by positivity
  have hp1 : (wins / total : ℝ) ≤ 1 := by
    rw [div_le_one htR]
    exact_mod_cast hw
  have hdom := wilson_margin_dominates wins total z hw ht hz
  rw [abs_le] at hdom
  unfold wilson_interval
  rw [if_neg (by omega)]
  refine ⟨le_max_left _ _, ?_, ?_, min_le_left _ _⟩
  · exact max_le hp0 (by linarith [hdom.1])
  · exact le_min hp1 (by linarith [hdom.2])

/-- C5: for all wins ≤ total with total > 0, the Wilson 95% interval
(z = 1.96) computed by `_wilson_interval` satisfies
`0 ≤ lo ≤ wins/total ≤ hi ≤ 1`; consequently the percent-scaled fields
`wr_lo95 = 100·lo` and `wr_hi95 = 100·hi` bracket the observed win rate in
percent. -/
theorem claim_C5_wilson_bounds (wins total : ℕ)
    (hw : wins ≤ total) (ht : 0 < total) :
    (0 ≤ (wilson_interval wins total zDefault).1 ∧
     (wilson_interval wins total zDefault).1 ≤ (wins / total : ℝ) ∧
     (wins / total : ℝ) ≤ (wilson_interval wins total zDefault).2 ∧
     (wilson_interval wins total zDefault).2 ≤ 1) ∧
    (100 * (wilson_interval wins total zDefault).1 ≤ 100 * (wins / total : ℝ) ∧
     100 * (wins / total : ℝ) ≤ 100 * (wilson_interval wins total zDefault).2) := by
  have hz : (0 : ℝ) ≤ zDefault := by
    unfold zDefault
    norm_num
  have h := wilson_interval_bounds wins total zDefault hw ht hz
  exact ⟨h, by linarith [h.2.1], by linarith [h.2.2.1]⟩

/-- Witness for C5: the bounds at the concrete input wins = 1, total = 2. -/
theorem claim_C5_wilson_bounds_witness :
    (0 ≤ (wilson_interval 1 2 zDefault).1 ∧
     (wilson_interval 1 2 zDefault).1 ≤ ((1 : ℕ) / (2 : ℕ) : ℝ) ∧
     ((1 : ℕ) / (2 : ℕ) : ℝ) ≤ (wilson_interval 1 2 zDefault).2 ∧
     (wilson_interval 1 2 zDefault).2 ≤ 1) ∧
    (100 * (wilson_interval 1 2 zDefault).1 ≤ 100 * ((1 : ℕ) / (2 : ℕ) : ℝ) ∧
     100 * ((1 : ℕ) / (2 : ℕ) : ℝ) ≤ 100 * (wilson_interval 1 2 zDefault).2) :=
  claim_C5_wilson_bounds 1 2 (by norm_num) (by norm_num)

end Wilson

/-! ### Rate limiter (src/gpt/rate_limiter.py) -/

namespace RateLimiter

inductive RequestStatus
| pending
| processing
| completed
| failed
| rejected
deriving Repr, DecidableEq

structure GPTRequest where
  request_id : ℕ
  status : RequestStatus
deriving Repr, DecidableEq

inductive PauseReason
| dailyCapReached
| otherReason
deriving Repr, DecidableEq

structure RLState where
  calls_used_today : ℕ
  daily_cap : ℕ
  last_reset_date : ℤ
  is_paused : Bool
  pause_reason : Option PauseReason
  request_queue : List GPTRequest
  active_request : Option GPTRequest
  completed_requests : List GPTRequest
  shutdown : Bool
deriving Repr, DecidableEq

def canAcceptRequest (s : RLState) : Prop :=
  s.is_paused = false ∧ s.calls_used_today < s.daily_cap ∧ s.shutdown = false

instance (s : RLState) : Decidable (canAcceptRequest s) := by
  unfold canAcceptRequest
  infer_instance

def checkDailyReset (s : RLState) (current_date : ℤ) : RLState :=
  if s.last_reset_date < current_date then
    if s.pause_reason = some PauseReason.dailyCapReached then
      { s with calls_used_today := 0, last_reset_date := current_date,
               is_paused := false, pause_reason := none }
    else { s with calls_used_today := 0, last_reset_date := current_date }
  else s

def submit_request (s : RLState) (rid : ℕ) (today : ℤ) : RLState :=
  if canAcceptRequest (checkDailyReset s today) then
    { checkDailyReset s today with request_queue :=
        (checkDailyReset s today).request_queue ++
          [{ request_id := rid, status := RequestStatus.pending }] }
  else
    { checkDailyReset s today with completed_requests :=
        (checkDailyReset s today).completed_requests ++
          [{ request_id := rid, status := RequestStatus.rejected }] }

def trimCompleted (l : List GPTRequest) : List GPTRequest :=
  if 100 < l.length then l.drop (l.length - 50) else l

inductive Step : RLState → RLState → Prop
| submit (s : RLState) (rid : ℕ) (today : ℤ) :
    Step s (submit_request s rid today)
| setPause (s : RLState) (p : Bool) (reason : Option PauseReason) :
    Step s { s with is_paused := p, pause_reason := if p then reason else none }
| reset (s : RLState) (today : ℤ) :
    Step s (checkDailyReset s today)
| dequeueReject (s : RLState) (req : GPTRequest) (rest : List GPTRequest) :
    s.request_queue = req :: rest →
    s.active_request = none →
    ¬ canAcceptRequest s →
    Step s { s with request_queue := rest,
                    completed_requests :=
                      s.completed_requests ++ [{ req with status := RequestStatus.rejected }] }
| dequeueBegin (s : RLState) (req : GPTRequest) (rest : List GPTRequest) :
    s.request_queue = req :: rest →
    s.active_request = none →
    canAcceptRequest s →
    Step s { s with request_queue := rest,
                    active_request := some { req with status := RequestStatus.processing } }
| finishSuccess (s : RLState) (req : GPTRequest) :
    s.active_request = some req →
    Step s { s with calls_used_today := s.calls_used_today + 1,
                    active_request := none,
                    completed_requests :=
                      trimCompleted (s.completed_requests ++
                        [{ req with status := RequestStatus.completed }]) }
| finishFailure (s : RLState) (req : GPTRequest) :
    s.active_request = some req →
    Step s { s with active_request := none,
                    completed_requests :=
                      trimCompleted (s.completed_requests ++
                        [{ req with status := RequestStatus.failed }]) }

def initState (cap : ℕ) (today : ℤ) : RLState :=
  { calls_used_today := 0, daily_cap := cap, last_reset_date := today,
    is_paused := false, pause_reason := none, request_queue := [],
    active_request := none, completed_requests := [], shutdown := false }

inductive Reachable (cap : ℕ) (today : ℤ) : RLState → Prop
| init : Reachable cap today (initState cap today)
| step {s t : RLState} : Reachable cap today s → Step s t → Reachable cap today t

def BudgetInv (s : RLState) : Prop :=
  s.calls_used_today ≤ s.daily_cap ∧
  (s.active_request ≠ none → s.calls_used_today < s.daily_cap)

theorem checkDailyReset_fields (s : RLState) (d : ℤ) :
    (checkDailyReset s d).daily_cap = s.daily_cap ∧
    (checkDailyReset s d).active_request = s.active_request ∧
    ((checkDailyReset s d).calls_used_today = s.calls_used_today ∨
     (checkDailyReset s d).calls_used_today = 0) := by
  unfold checkDailyReset
  split
  · split
    · exact ⟨rfl, rfl, Or.inr rfl⟩
    · exact ⟨rfl, rfl, Or.inr rfl⟩
  · exact ⟨rfl, rfl, Or.inl rfl⟩

theorem checkDailyReset_inv {s : RLState} (d : ℤ) (h : BudgetInv s) :
    BudgetInv (checkDailyReset s d) := by
  obtain ⟨h1, h2⟩ := h
  obtain ⟨hc, ha, hu⟩ := checkDailyReset_fields s d
  constructor
  · rcases hu with hu | hu <;> omega
  · intro hact
    rw [ha] at hact
    have := h2 hact
    rcases hu with hu | hu <;> omega

theorem budget_inv_step {s t : RLState} (hs : BudgetInv s) (hst : Step s t) :
    BudgetInv t := by
  obtain ⟨h1, h2⟩ := hs
  cases hst with
  | submit rid today =>
    have hr := checkDailyReset_inv today ⟨h1, h2⟩
    obtain ⟨hr1, hr2⟩ := hr
    unfold submit_request
    split
    · exact ⟨hr1, fun h => hr2 (by simpa using h)⟩
    · exact ⟨hr1, fun h => hr2 (by simpa using h)⟩
  | setPause p reason => exact ⟨h1, fun h => h2 (by simpa using h)⟩
  | reset today => exact checkDailyReset_inv today ⟨h1, h2⟩
  | dequeueReject req rest hq ha hno => exact ⟨h1, fun h => h2 (by simpa using h)⟩
  | dequeueBegin req rest hq ha hyes => exact ⟨h1, fun _ => hyes.2.1⟩
  | finishSuccess req ha =>
    have hlt : s.calls_used_today < s.daily_cap := h2 (by rw [ha]; simp)
    exact ⟨by simpa using hlt, fun h => by simp at h⟩
  | finishFailure req ha => exact ⟨h1, fun h => by simp at h⟩

theorem budget_inv_reachable {cap : ℕ} {today : ℤ} {s : RLState}
    (h : Reachable cap today s) : BudgetInv s := by
  induction h with
  | init => exact ⟨Nat.zero_le _, fun _ => by simp [initState] at *⟩
  | step _ hst ih => exact budget_inv_step ih hst

/-- C1: over every sequence of submits, pause toggles, daily resets and
worker steps, the rate limiter's `calls_used_today` never exceeds
`daily_cap`: admission is checked at submit time and again at dequeue time,
and the counter is incremented only in the success path of a request that
passed the dequeue-time check. -/
theorem claim_C1 {cap : ℕ} {today : ℤ} {s : RLState}
    (h : Reachable cap today s) : s.calls_used_today ≤ s.daily_cap :=
  (budget_inv_reachable h).1

theorem claim_C1_witness :
    (submit_request (initState 5 0) 1 0).calls_used_today ≤
      (submit_request (initState 5 0) 1 0).daily_cap :=
  claim_C1 (Reachable.step Reachable.init (Step.submit (initState 5 0) 1 0))

def drainSearch (rid : ℕ) : List GPTRequest → List GPTRequest × Option GPTRequest
| [] => ([], none)
| r :: rest =>
  if r.request_id = rid then ([r], some r)
  else
    ((r :: (drainSearch rid rest).1), (drainSearch rid rest).2)

def findCompleted (rid : ℕ) (l : List GPTRequest) : Option GPTRequest :=
  l.find? (fun r => r.request_id = rid)

def get_request_status (s : RLState) (rid : ℕ) : RLState × Option GPTRequest :=
  match s.active_request with
  | some req =>
    if req.request_id = rid then (s, some req)
    else getFromRest s rid
  | none => getFromRest s rid
where
  getFromRest (s : RLState) (rid : ℕ) : RLState × Option GPTRequest :=
    match findCompleted rid s.completed_requests with
    | some req => (s, some req)
    | none =>
      ({ s with request_queue :=
          s.request_queue.drop (drainSearch rid s.request_queue).1.length ++
            (drainSearch rid s.request_queue).1.reverse },
       (drainSearch rid s.request_queue).2)

def queueBugState : RLState :=
  { calls_used_today := 0, daily_cap := 5, last_reset_date := 0,
    is_paused := false, pause_reason := none,
    request_queue := [{ request_id := 1, status := RequestStatus.pending },
                      { request_id := 2, status := RequestStatus.pending }],
    active_request := none, completed_requests := [], shutdown := false }

/-- C7 (bug evaluation): with pending queue `[r1, r2]`, a
`get_request_status` lookup of an id not in the queue drains the queue and
puts the items back through `reversed(...)`, leaving the queue `[r2, r1]` —
not the original submission order the module's docstring promises. -/
theorem claim_C7_bug :
    (get_request_status queueBugState 999).1.request_queue =
      [{ request_id := 2, status := RequestStatus.pending },
       { request_id := 1, status := RequestStatus.pending }] ∧
    (get_request_status queueBugState 999).1.request_queue ≠
      queueBugState.request_queue := by
  decide

end RateLimiter

namespace CostOptimizer

inductive COReason
| dailyCapExceeded
| emergencyPause
deriving Repr, DecidableEq

structure BudgetState where
  daily_cap : ℕ
  used_today : ℕ
  paused : Bool
  paused_reason : Option COReason
  last_reset_date : ℤ
deriving Repr, DecidableEq

structure COState where
  budget : BudgetState
  recent_gpt_passes : List ℕ
  session_losses : ℕ
deriving Repr, DecidableEq

def maybe_reset_day (s : COState) (today : ℤ) : COState :=
  if s.budget.last_reset_date ≠ today then
    { budget := { daily_cap := s.budget.daily_cap, used_today := 0, paused := false,
                  paused_reason := none, last_reset_date := today },
      recent_gpt_passes := [], session_losses := s.session_losses }
  else s

def emergencyPausedState : COState :=
  { budget := { daily_cap := 500, used_today := 3, paused := true,
                paused_reason := some COReason.emergencyPause, last_reset_date := 0 },
    recent_gpt_passes := [7, 8, 9], session_losses := 2 }

/-- C8 counterexample: a CostOptimizer state paused with the emergency
reason (not the daily-cap reason) is unpaused by `_maybe_reset_day` on a
date change, contradicting the claim that only a daily-cap pause is
cleared. -/
theorem claim_C8_counterexample :
    emergencyPausedState.budget.paused = true ∧
    emergencyPausedState.budget.paused_reason ≠ some COReason.dailyCapExceeded ∧
    (maybe_reset_day emergencyPausedState 1).budget.paused = false := by
  decide

/-- C8 (amended): RateLimiter's `_check_daily_reset` zeroes the counter and
clears the pause precisely when the reason is the daily-cap reason;
CostOptimizer's `_maybe_reset_day` zeroes the counter but clears ANY pause
unconditionally and empties `recent_gpt_passes`, while `session_losses` is
left unchanged; both run exactly once per date change (second application on
the same date is the identity). -/
theorem claim_C8_amended :
    (∀ (s : RateLimiter.RLState) (d : ℤ), s.last_reset_date < d →
      (RateLimiter.checkDailyReset s d).calls_used_today = 0 ∧
      (RateLimiter.checkDailyReset s d).last_reset_date = d ∧
      (RateLimiter.checkDailyReset s d).is_paused =
        (if s.pause_reason = some RateLimiter.PauseReason.dailyCapReached then false
         else s.is_paused)) ∧
    (∀ (s : RateLimiter.RLState) (d : ℤ), ¬ s.last_reset_date < d →
      RateLimiter.checkDailyReset s d = s) ∧
    (∀ (s : COState) (d : ℤ), s.budget.last_reset_date ≠ d →
      (maybe_reset_day s d).budget.used_today = 0 ∧
      (maybe_reset_day s d).budget.paused = false ∧
      (maybe_reset_day s d).budget.paused_reason = none ∧
      (maybe_reset_day s d).session_losses = s.session_losses ∧
      (maybe_reset_day s d).recent_gpt_passes = []) ∧
    (∀ (s : COState) (d : ℤ), s.budget.last_reset_date = d →
      maybe_reset_day s d = s) ∧
    (∀ (s : COState) (d : ℤ),
      maybe_reset_day (maybe_reset_day s d) d = maybe_reset_day s d) := by
  refine ⟨?_, ?_, ?_, ?_, ?_⟩
  · intro s d hd
    unfold RateLimiter.checkDailyReset
    rw [if_pos hd]
    by_cases hp : s.pause_reason = some RateLimiter.PauseReason.dailyCapReached
    · simp [hp]
    · simp [hp]
  · intro s d hd
    unfold RateLimiter.checkDailyReset
    rw [if_neg hd]
  · intro s d hd
    unfold maybe_reset_day
    rw [if_pos hd]
    exact ⟨rfl, rfl, rfl, rfl, rfl⟩
  · intro s d hd
    unfold maybe_reset_day
    rw [if_neg (by simp [hd])]
  · intro s d
    by_cases hd : s.budget.last_reset_date ≠ d
    · unfold maybe_reset_day
      rw [if_pos hd]
      rw [if_neg (by simp)]
    · unfold maybe_reset_day
      rw [if_neg hd, if_neg hd]

theorem claim_C8_amended_witness :
    (RateLimiter.checkDailyReset (RateLimiter.initState 5 0) 1).calls_used_today = 0 ∧
    (maybe_reset_day emergencyPausedState 1).session_losses =
      emergencyPausedState.session_losses :=
  ⟨(claim_C8_amended.1 (RateLimiter.initState 5 0) 1 (by decide)).1,
   (claim_C8_amended.2.2.1 emergencyPausedState 1 (by decide)).2.2.2.1⟩

end CostOptimizer

/-! ### Pattern memory (src/learning/pattern_memory.py)

The Wilson bounds `wr_lo95`/`wr_hi95` involve a square root (proved over the
reals in the Wilson section above); in this rational state model the two
bound computations are abstracted as parameters `wLo`/`wHi`, and every
theorem below is quantified over all instantiations of them. -/

namespace PatternMemory

inductive PatternStatus
| active
| gold
| frozen
deriving Repr, DecidableEq

inductive TradeOutcome
| win
| loss
| breakeven
| timeout
deriving Repr, DecidableEq

structure TradeRecord where
  trade_id : ℕ
  result : TradeOutcome
  pnl_pts : ℚ
  timestamp : ℤ
deriving Repr, DecidableEq

structure Fingerprint where
  total_samples : ℕ
  wins : ℕ
  losses : ℕ
  breakevens : ℕ
  timeouts : ℕ
  win_rate : ℚ
  avg_pnl_pts : ℚ
  profit_factor : Option ℚ
  expectancy : ℚ
  status : PatternStatus
  promotion_timestamp : Option ℤ
  last_trade_timestamp : ℤ
  trade_ids : List ℕ
  consistency_score : ℚ
  recent_performance : ℚ
  ew_win_rate : ℚ
  ew_expectancy : ℚ
  wr_lo95 : ℚ
  wr_hi95 : ℚ
  last_promo_check : Option ℤ
  cooldown_until : Option ℤ
deriving Repr, DecidableEq

def commission_pts : ℚ := 6 / 100

def slip_pts : ℚ := 2 / 100

def cost_aware_ev (pnl_points : ℚ) : ℚ := pnl_points - commission_pts - slip_pts

def ewma (old new : ℚ) : ℚ :=
  if old = 0 then new else (12 / 100) * new + (1 - 12 / 100) * old

def min_samples_for_gold : ℕ := 30

def min_win_rate_for_gold : ℚ := 82

def min_expectancy_for_gold : ℚ := 1 / 2

def create_new_fingerprint (tr : TradeRecord) : Fingerprint :=
  { total_samples := 0, wins := 0, losses := 0, breakevens := 0, timeouts := 0,
    win_rate := 0, avg_pnl_pts := 0, profit_factor := some 0, expectancy := 0,
    status := PatternStatus.active, promotion_timestamp := none,
    last_trade_timestamp := tr.timestamp, trade_ids := [],
    consistency_score := 0, recent_performance := 0,
    ew_win_rate := 0, ew_expectancy := 0, wr_lo95 := 0, wr_hi95 := 0,
    last_promo_check := none, cooldown_until := none }

def takeLastIds (n : ℕ) (l : List ℕ) : List ℕ := l.drop (l.length - n)

def bump_counters (f : Fingerprint) (tr : TradeRecord) : Fingerprint :=
  { f with
    trade_ids :=
      (if 100 < (f.trade_ids ++ [tr.trade_id]).length then
        takeLastIds 50 (f.trade_ids ++ [tr.trade_id])
      else f.trade_ids ++ [tr.trade_id]),
    last_trade_timestamp := tr.timestamp,
    total_samples := f.total_samples + 1,
    wins := f.wins + (if tr.result = TradeOutcome.win then 1 else 0),
    losses := f.losses + (if tr.result = TradeOutcome.loss then 1 else 0),
    breakevens := f.breakevens + (if tr.result = TradeOutcome.breakeven then 1 else 0),
    timeouts := f.timeouts + (if tr.result = TradeOutcome.timeout then 1 else 0) }

def newAvgPnl (f : Fingerprint) (tr : TradeRecord) : ℚ :=
  if f.total_samples = 1 then cost_aware_ev tr.pnl_pts
  else f.avg_pnl_pts + (cost_aware_ev tr.pnl_pts - f.avg_pnl_pts) / (f.total_samples : ℚ)

def newProfitFactor (f : Fingerprint) (tr : TradeRecord) : Option ℚ :=
  if 0 < f.losses then
    (if min (newAvgPnl f tr) (-(1 / 1000000)) < 0 then
      some |max (newAvgPnl f tr) (1 / 1000000) / min (newAvgPnl f tr) (-(1 / 1000000))|
    else none)
  else none

def recalculate_metrics (wLo wHi : ℕ → ℕ → ℚ) (f : Fingerprint) (tr : TradeRecord) :
    Fingerprint :=
  if f.total_samples = 0 then f
  else
    { f with
      win_rate := ((f.wins : ℚ) / (f.total_samples : ℚ)) * 100,
      avg_pnl_pts := newAvgPnl f tr,
      expectancy := newAvgPnl f tr,
      profit_factor := newProfitFactor f tr,
      ew_win_rate :=
        ewma f.ew_win_rate (if tr.result = TradeOutcome.win then 1 else 0) * 100,
      wr_lo95 := wLo f.wins f.total_samples * 100,
      wr_hi95 := wHi f.wins f.total_samples * 100,
      consistency_score :=
        (if 10 ≤ f.total_samples then
          min 100 (((f.wins : ℚ) / (f.total_samples : ℚ)) * 100 * (12 / 10))
        else 50),
      recent_performance :=
        max f.recent_performance
          (ewma f.ew_win_rate (if tr.result = TradeOutcome.win then 1 else 0) * 100) }

def update_fingerprint_stats (wLo wHi : ℕ → ℕ → ℚ) (f : Fingerprint) (tr : TradeRecord) :
    Fingerprint :=
  recalculate_metrics wLo wHi (bump_counters f tr) tr

def cooldownActive (f : Fingerprint) (now : ℤ) : Prop :=
  ∃ c, f.cooldown_until = some c ∧ now < c

instance (f : Fingerprint) (now : ℤ) : Decidable (cooldownActive f now) := by
  unfold cooldownActive
  cases h : f.cooldown_until with
  | none => exact Decidable.isFalse (by simp [h])
  | some c =>
    by_cases hc : now < c
    · exact Decidable.isTrue ⟨c, by simp [h, hc]⟩
    · exact Decidable.isFalse (by simp [h, hc])

def promote_to_gold (now : ℤ) (f : Fingerprint) : Fingerprint :=
  { f with status := PatternStatus.gold, promotion_timestamp := some now }

def freeze_pattern (f : Fingerprint) : Fingerprint :=
  { f with status := PatternStatus.frozen }

def reactivate_pattern (f : Fingerprint) : Fingerprint :=
  { f with status := PatternStatus.active }

def check_status_changes (now : ℤ) (f : Fingerprint) : Fingerprint :=
  if cooldownActive f now then f
  else if f.status = PatternStatus.active ∧
          min_samples_for_gold ≤ f.total_samples ∧
          min_win_rate_for_gold ≤ f.wr_lo95 ∧
          now - f.last_trade_timestamp ≤ 7 ∧
          min_expectancy_for_gold ≤ f.ew_expectancy then
    { promote_to_gold now f with last_promo_check := some now }
  else if 20 ≤ f.total_samples ∧
          f.recent_performance < 60 ∧
          f.ew_expectancy < 0 then
    { freeze_pattern f with cooldown_until := some (now + 3) }
  else if f.status = PatternStatus.frozen ∧
          10 ≤ f.total_samples ∧
          70 < f.recent_performance ∧
          0 ≤ f.ew_expectancy then
    { reactivate_pattern f with cooldown_until := none }
  else f

def update_pattern_stats (wLo wHi : ℕ → ℕ → ℚ) (now : ℤ) (f : Fingerprint)
    (tr : TradeRecord) : Fingerprint :=
  check_status_changes now (update_fingerprint_stats wLo wHi f tr)

structure ImportBlob where
  total_samples : ℕ
  wins : ℕ
  losses : ℕ
  breakevens : ℕ
  timeouts : ℕ
  win_rate : ℚ
  avg_pnl_pts : ℚ
  profit_factor : ℚ
  expectancy : ℚ
  ew_win_rate : ℚ
  ew_expectancy : ℚ
  wr_lo95 : ℚ
  wr_hi95 : ℚ
  consistency_score : ℚ
  status : PatternStatus
  promotion_timestamp : Option ℤ
  last_trade_timestamp : ℤ
  trade_ids : List ℕ
  cooldown_until : Option ℤ
deriving Repr, DecidableEq

def import_fingerprint (b : ImportBlob) : Fingerprint :=
  { total_samples := b.total_samples, wins := b.wins, losses := b.losses,
    breakevens := b.breakevens, timeouts := b.timeouts,
    win_rate := b.win_rate, avg_pnl_pts := b.avg_pnl_pts,
    profit_factor := some b.profit_factor, expectancy := b.expectancy,
    status := b.status, promotion_timestamp := b.promotion_timestamp,
    last_trade_timestamp := b.last_trade_timestamp,
    trade_ids := takeLastIds 50 b.trade_ids,
    consistency_score := b.consistency_score,
    recent_performance := 0,
    ew_win_rate := b.ew_win_rate, ew_expectancy := b.ew_expectancy,
    wr_lo95 := b.wr_lo95, wr_hi95 := b.wr_hi95,
    last_promo_check := none, cooldown_until := b.cooldown_until }

inductive ReachableFP (wLo wHi : ℕ → ℕ → ℚ) : Fingerprint → Prop
| created (tr : TradeRecord) : ReachableFP wLo wHi (create_new_fingerprint tr)
| imported (b : ImportBlob) : ReachableFP wLo wHi (import_fingerprint b)
| update {f : Fingerprint} (now : ℤ) (tr : TradeRecord) :
    ReachableFP wLo wHi f →
    ReachableFP wLo wHi (update_pattern_stats wLo wHi now f tr)

inductive CreatedFP (wLo wHi : ℕ → ℕ → ℚ) : Fingerprint → Prop
| created (tr : TradeRecord) : CreatedFP wLo wHi (create_new_fingerprint tr)
| update {f : Fingerprint} (now : ℤ) (tr : TradeRecord) :
    CreatedFP wLo wHi f →
    CreatedFP wLo wHi (update_pattern_stats wLo wHi now f tr)

def EwRecentInv (f : Fingerprint) : Prop :=
  f.ew_win_rate < 60 → f.recent_performance < 60

theorem bump_counters_fields (f : Fingerprint) (tr : TradeRecord) :
    (bump_counters f tr).ew_win_rate = f.ew_win_rate ∧
    (bump_counters f tr).recent_performance = f.recent_performance ∧
    (bump_counters f tr).ew_expectancy = f.ew_expectancy ∧
    (bump_counters f tr).cooldown_until = f.cooldown_until ∧
    (bump_counters f tr).total_samples = f.total_samples + 1 :=
  ⟨rfl, rfl, rfl, rfl, rfl⟩

theorem ewma_step_lt_60 (old : ℚ) (w : ℚ) (hw : w = 0 ∨ w = 1)
    (h : ewma old w * 100 < 60) : old < 60 := by
  unfold ewma at h
  by_cases h0 : old = 0
  · rw [h0]
    norm_num
  · rw [if_neg h0] at h
    by_contra hge
    push_neg at hge
    rcases hw with hw | hw <;> rw [hw] at h <;> nlinarith

theorem recalc_ew_recent (wLo wHi : ℕ → ℕ → ℚ) (f : Fingerprint) (tr : TradeRecord)
    (hs : ¬ f.total_samples = 0) :
    (recalculate_metrics wLo wHi f tr).ew_win_rate =
      ewma f.ew_win_rate (if tr.result = TradeOutcome.win then 1 else 0) * 100 ∧
    (recalculate_metrics wLo wHi f tr).recent_performance =
      max f.recent_performance
        (ewma f.ew_win_rate (if tr.result = TradeOutcome.win then 1 else 0) * 100) ∧
    (recalculate_metrics wLo wHi f tr).ew_expectancy = f.ew_expectancy ∧
    (recalculate_metrics wLo wHi f tr).cooldown_until = f.cooldown_until ∧
    (recalculate_metrics wLo wHi f tr).total_samples = f.total_samples := by
  unfold recalculate_metrics
  rw [if_neg hs]
  exact ⟨rfl, rfl, rfl, rfl, rfl⟩

theorem check_status_preserves (now : ℤ) (f : Fingerprint) :
    (check_status_changes now f).ew_win_rate = f.ew_win_rate ∧
    (check_status_changes now f).recent_performance = f.recent_performance ∧
    (check_status_changes now f).ew_expectancy = f.ew_expectancy ∧
    (check_status_changes now f).total_samples = f.total_samples := by
  unfold check_status_changes promote_to_gold freeze_pattern reactivate_pattern
  split
  · exact ⟨rfl, rfl, rfl, rfl⟩
  · split
    · exact ⟨rfl, rfl, rfl, rfl⟩
    · split
      · exact ⟨rfl, rfl, rfl, rfl⟩
      · split
        · exact ⟨rfl, rfl, rfl, rfl⟩
        · exact ⟨rfl, rfl, rfl, rfl⟩

theorem update_stats_ew_recent (wLo wHi : ℕ → ℕ → ℚ) (f : Fingerprint)
    (tr : TradeRecord) :
    (update_fingerprint_stats wLo wHi f tr).ew_win_rate =
      ewma f.ew_win_rate (if tr.result = TradeOutcome.win then 1 else 0) * 100 ∧
    (update_fingerprint_stats wLo wHi f tr).recent_performance =
      max f.recent_performance
        (ewma f.ew_win_rate (if tr.result = TradeOutcome.win then 1 else 0) * 100) ∧
    (update_fingerprint_stats wLo wHi f tr).ew_expectancy = f.ew_expectancy ∧
    (update_fingerprint_stats wLo wHi f tr).cooldown_until = f.cooldown_until ∧
    (update_fingerprint_stats wLo wHi f tr).total_samples = f.total_samples + 1 := by
  unfold update_fingerprint_stats
  have hb := bump_counters_fields f tr
  have hr := recalc_ew_recent wLo wHi (bump_counters f tr) tr (by
    rw [hb.2.2.2.2]
    omega)
  refine ⟨?_, ?_, ?_, ?_, ?_⟩
  · rw [hr.1, hb.1]
  · rw [hr.2.1, hb.1, hb.2.1]
  · rw [hr.2.2.1, hb.2.2.1]
  · rw [hr.2.2.2.1, hb.2.2.2.1]
  · rw [hr.2.2.2.2, hb.2.2.2.2]

theorem ew_recent_inv_update (wLo wHi : ℕ → ℕ → ℚ) {f : Fingerprint}
    (hf : EwRecentInv f) (now : ℤ) (tr : TradeRecord) :
    EwRecentInv (update_pattern_stats wLo wHi now f tr) := by
  intro hew
  unfold update_pattern_stats at hew ⊢
  have hc := check_status_preserves now (update_fingerprint_stats wLo wHi f tr)
  rw [hc.1] at hew
  rw [hc.2.1]
  have hu := update_stats_ew_recent wLo wHi f tr
  rw [hu.1] at hew
  rw [hu.2.1]
  have hold : f.ew_win_rate < 60 := by
    apply ewma_step_lt_60 f.ew_win_rate _ _ hew
    by_cases h : tr.result = TradeOutcome.win
    · simp [h]
    · simp [h]
  exact max_lt (hf hold) hew

theorem ew_recent_inv_reachable (wLo wHi : ℕ → ℕ → ℚ) {f : Fingerprint}
    (h : ReachableFP wLo wHi f) : EwRecentInv f := by
  induction h with
  | created tr =>
    intro _
    unfold create_new_fingerprint
    norm_num
  | imported b =>
    intro _
    unfold import_fingerprint
    norm_num
  | update now tr _ ih => exact ew_recent_inv_update wLo wHi ih now tr

/-- C3: whenever an update leaves a (reachable) fingerprint that is not in
cooldown with total samples ≥ 20, `ew_win_rate` < 60 and `ew_expectancy` < 0,
the status becomes FROZEN and `cooldown_until` is set 3 days in the future.
The code tests `recent_performance` (the running maximum of `ew_win_rate`),
but on every reachable state `ew_win_rate < 60` forces
`recent_performance < 60`, so the claimed trigger is equivalent there. -/
theorem claim_C3 (wLo wHi : ℕ → ℕ → ℚ) (f : Fingerprint)
    (hreach : ReachableFP wLo wHi f) (tr : TradeRecord) (now : ℤ)
    (hcool : ∀ c, (update_fingerprint_stats wLo wHi f tr).cooldown_until = some c → c ≤ now)
    (hsamp : 20 ≤ (update_fingerprint_stats wLo wHi f tr).total_samples)
    (hew : (update_fingerprint_stats wLo wHi f tr).ew_win_rate < 60)
    (hexp : (update_fingerprint_stats wLo wHi f tr).ew_expectancy < 0) :
    (update_pattern_stats wLo wHi now f tr).status = PatternStatus.frozen ∧
    (update_pattern_stats wLo wHi now f tr).cooldown_until = some (now + 3) := by
  have hinv := ew_recent_inv_reachable wLo wHi hreach
  set g := update_fingerprint_stats wLo wHi f tr with hg
  have hu := update_stats_ew_recent wLo wHi f tr
  rw [← hg] at hu
  have hrec : g.recent_performance < 60 := by
    rw [hu.2.1]
    rw [hu.1] at hew
    have hold : f.ew_win_rate < 60 := by
      apply ewma_step_lt_60 f.ew_win_rate _ _ hew
      by_cases h : tr.result = TradeOutcome.win
      · simp [h]
      · simp [h]
    exact max_lt (hinv hold) hew
  have hncool : ¬ cooldownActive g now := by
    rintro ⟨c, hc, hlt⟩
    have := hcool c hc
    omega
  unfold update_pattern_stats
  rw [← hg]
  unfold check_status_changes
  rw [if_neg hncool]
  rw [if_neg ?hgold]
  case hgold =>
    rintro ⟨-, -, -, -, hge⟩
    unfold min_expectancy_for_gold at hge
    linarith
  rw [if_pos ⟨hsamp, hrec, hexp⟩]
  exact ⟨rfl, rfl⟩

def zeroW : ℕ → ℕ → ℚ := fun _ _ => 0

def importedExample : ImportBlob :=
  { total_samples := 19, wins := 7, losses := 12, breakevens := 0, timeouts := 0,
    win_rate := 3684 / 100, avg_pnl_pts := -(1 / 2), profit_factor := 0,
    expectancy := -(1 / 2), ew_win_rate := 1 / 2, ew_expectancy := -1,
    wr_lo95 := 0, wr_hi95 := 0, consistency_score := 50,
    status := PatternStatus.active, promotion_timestamp := none,
    last_trade_timestamp := 0, trade_ids := [], cooldown_until := none }

def lossTrade : TradeRecord :=
  { trade_id := 20, result := TradeOutcome.loss, pnl_pts := -(5 / 4), timestamp := 0 }

theorem claim_C3_witness :
    (update_pattern_stats zeroW zeroW 0 (import_fingerprint importedExample)
      lossTrade).status = PatternStatus.frozen ∧
    (update_pattern_stats zeroW zeroW 0 (import_fingerprint importedExample)
      lossTrade).cooldown_until = some 3 := by
  have hu := update_stats_ew_recent zeroW zeroW (import_fingerprint importedExample) lossTrade
  have h := claim_C3 zeroW zeroW (import_fingerprint importedExample)
    (ReachableFP.imported importedExample) lossTrade 0
    (by
      rw [hu.2.2.2.1]
      intro c hc
      simp [import_fingerprint, importedExample] at hc)
    (by
      rw [hu.2.2.2.2]
      simp [import_fingerprint, importedExample])
    (by
      rw [hu.1]
      have hif : (if lossTrade.result = TradeOutcome.win then (1 : ℚ) else 0) = 0 :=
        if_neg (by decide)
      rw [hif]
      simp only [import_fingerprint, importedExample]
      norm_num [ewma])
    (by
      rw [hu.2.2.1]
      simp [import_fingerprint, importedExample])
  simpa using h

/-- C10: a fingerprint created by `update_pattern_stats` (as opposed to one
loaded by `import_patterns`) has `ew_expectancy = 0` after any sequence of
updates — the per-update recomputation never assigns it — so the
GOLD-promotion test (≥ 0.5) and the freeze test (< 0) are both decided
against the constant 0. -/
theorem claim_C10 (wLo wHi : ℕ → ℕ → ℚ) (f : Fingerprint)
    (h : CreatedFP wLo wHi f) :
    f.ew_expectancy = 0 ∧
    ¬ min_expectancy_for_gold ≤ f.ew_expectancy ∧
    ¬ f.ew_expectancy < 0 := by
  have hz : f.ew_expectancy = 0 := by
    induction h with
    | created tr => rfl
    | update now tr _ ih =>
      unfold update_pattern_stats
      rw [(check_status_preserves _ _).2.2.1, (update_stats_ew_recent _ _ _ _).2.2.1]
      exact ih
  refine ⟨hz, ?_, ?_⟩
  · rw [hz]
    unfold min_expectancy_for_gold
    norm_num
  · rw [hz]
    norm_num

def createdExample : TradeRecord :=
  { trade_id := 1, result := TradeOutcome.win, pnl_pts := 1, timestamp := 0 }

theorem claim_C10_witness :
    (create_new_fingerprint createdExample).ew_expectancy = 0 ∧
    ¬ min_expectancy_for_gold ≤ (create_new_fingerprint createdExample).ew_expectancy ∧
    ¬ (create_new_fingerprint createdExample).ew_expectancy < 0 :=
  claim_C10 zeroW zeroW (create_new_fingerprint createdExample)
    (CreatedFP.created createdExample)

/-- `PatternMemory.import_patterns` at the list level: break once the store
reaches the cap, silently skip entries whose last trade is more than 180 days
before `now`, import the rest; returns the store and the imported count. -/
def import_patterns (now : ℤ) (fps : List Fingerprint) (blobs : List ImportBlob)
    (maxP : ℕ) : List Fingerprint × ℕ :=
  match blobs with
  | [] => (fps, 0)
  | b :: rest =>
    if maxP ≤ fps.length then (fps, 0)
    else if 180 < now - b.last_trade_timestamp then import_patterns now fps rest maxP
    else
      ((import_patterns now (fps ++ [import_fingerprint b]) rest maxP).1,
       (import_patterns now (fps ++ [import_fingerprint b]) rest maxP).2 + 1)

end PatternMemory

/-! ### Hard negatives (src/learning/hard_negatives.py)

The source file is truncated mid-declaration of `_extract_and_bin_features`,
so `_match_score` is absent; the match score is therefore abstracted as a
function parameter `score`, and the veto-decision theorems quantify over it.
The decision logic of `check_candidate_against_templates` (lines 202-274) is
embedded as written: skip cooled-down templates, keep the strictly best
score starting from -1e9, veto iff the best score clears `min_veto_score`
and the template's `loss_rate_lo95` clears `min_loss_lb`. -/

namespace HardNegatives

structure NoTradeTemplate where
  template_id : ℕ
  setup_type : ℕ
  severity_sum : ℚ
  samples : ℕ
  total_checks : ℕ
  vetoes : ℕ
  passed : ℕ
  true_saves : ℕ
  false_vetoes : ℕ
  post_pass_losses : ℕ
  post_pass_wins : ℕ
  creation_timestamp : ℤ
  last_match_timestamp : Option ℤ
  cooldown_until : Option ℤ
  loss_rate_lo95 : ℚ
  save_rate_lo95 : ℚ
deriving Repr, DecidableEq

def min_veto_score : ℚ := 1

def min_loss_lb : ℚ := 6 / 10

def cooldown_days : ℤ := 3

def cooledDown (t : NoTradeTemplate) (now : ℤ) : Prop :=
  ∃ c, t.cooldown_until = some c ∧ now < c

instance (t : NoTradeTemplate) (now : ℤ) : Decidable (cooledDown t now) := by
  unfold cooledDown
  cases h : t.cooldown_until with
  | none => exact Decidable.isFalse (by simp [h])
  | some c =>
    by_cases hc : now < c
    · exact Decidable.isTrue ⟨c, by simp [h, hc]⟩
    · exact Decidable.isFalse (by simp [h, hc])

def bestMatchAux (score : NoTradeTemplate → ℚ) (now : ℤ)
    (acc : Option NoTradeTemplate × ℚ) :
    List NoTradeTemplate → Option NoTradeTemplate × ℚ
| [] => acc
| t :: rest =>
  if cooledDown t now then bestMatchAux score now acc rest
  else if acc.2 < score t then bestMatchAux score now (some t, score t) rest
  else bestMatchAux score now acc rest

def bestMatch (score : NoTradeTemplate → ℚ) (now : ℤ)
    (ts : List NoTradeTemplate) : Option NoTradeTemplate × ℚ :=
  bestMatchAux score now (none, -(1000000000 : ℚ)) ts

structure CheckResult where
  veto : Bool
  score : ℚ
  matched_template : Option NoTradeTemplate
deriving Repr, DecidableEq

def decideVeto (now : ℤ) : Option NoTradeTemplate → ℚ → CheckResult
| none, _ => { veto := false, score := 0, matched_template := none }
| some t, s =>
  if min_veto_score ≤ s ∧ min_loss_lb ≤ t.loss_rate_lo95 then
    { veto := true, score := s,
      matched_template := some { t with vetoes := t.vetoes + 1,
                                        cooldown_until := some (now + cooldown_days) } }
  else
    { veto := false, score := s,
      matched_template := some { t with passed := t.passed + 1 } }

def check_candidate_against_templates (score : NoTradeTemplate → ℚ) (now : ℤ)
    (ts : List NoTradeTemplate) : CheckResult :=
  decideVeto now (bestMatch score now ts).1 (bestMatch score now ts).2

def exampleTemplate (lb : ℚ) : NoTradeTemplate :=
  { template_id := 1, setup_type := 0, severity_sum := 2, samples := 3,
    total_checks := 0, vetoes := 0, passed := 0, true_saves := 0,
    false_vetoes := 0, post_pass_losses := 0, post_pass_wins := 0,
    creation_timestamp := 0, last_match_timestamp := none,
    cooldown_until := none, loss_rate_lo95 := lb, save_rate_lo95 := 0 }

def exampleScore : NoTradeTemplate → ℚ := fun _ => 12 / 10

/-- C4: `check_candidate_against_templates` vetoes for the best-matching
non-cooldown template iff the match score reaches `min_veto_score` (1.0) and
the template's `loss_rate_lo95` reaches `min_loss_lb` (0.60); a fired veto
bumps the template's veto count and sets a `cooldown_days` cooldown.  A
template with `loss_rate_lo95 = 0.65` at score 1.2 is vetoed; the same
template with 0.55 at the same score is not. -/
theorem claim_C4 :
    (∀ (score : NoTradeTemplate → ℚ) (now : ℤ) (ts : List NoTradeTemplate)
       (t : NoTradeTemplate) (s : ℚ),
      bestMatch score now ts = (some t, s) →
      ((check_candidate_against_templates score now ts).veto = true ↔
        (min_veto_score ≤ s ∧ min_loss_lb ≤ t.loss_rate_lo95)) ∧
      ((check_candidate_against_templates score now ts).veto = true →
        (check_candidate_against_templates score now ts).matched_template =
          some { t with vetoes := t.vetoes + 1,
                        cooldown_until := some (now + cooldown_days) })) ∧
    (check_candidate_against_templates exampleScore 0
      [exampleTemplate (65 / 100)]).veto = true ∧
    (check_candidate_against_templates exampleScore 0
      [exampleTemplate (55 / 100)]).veto = false := by
  have main : ∀ (score : NoTradeTemplate → ℚ) (now : ℤ) (ts : List NoTradeTemplate)
       (t : NoTradeTemplate) (s : ℚ),
      bestMatch score now ts = (some t, s) →
      ((check_candidate_against_templates score now ts).veto = true ↔
        (min_veto_score ≤ s ∧ min_loss_lb ≤ t.loss_rate_lo95)) ∧
      ((check_candidate_against_templates score now ts).veto = true →
        (check_candidate_against_templates score now ts).matched_template =
          some { t with vetoes := t.vetoes + 1,
                        cooldown_until := some (now + cooldown_days) }) := by
    intro score now ts t s hbest
    unfold check_candidate_against_templates
    rw [hbest]
    show ((decideVeto now (some t) s).veto = true ↔
        (min_veto_score ≤ s ∧ min_loss_lb ≤ t.loss_rate_lo95)) ∧
      ((decideVeto now (some t) s).veto = true →
        (decideVeto now (some t) s).matched_template =
          some { t with vetoes := t.vetoes + 1,
                        cooldown_until := some (now + cooldown_days) })
    simp only [decideVeto]
    by_cases hcond : min_veto_score ≤ s ∧ min_loss_lb ≤ t.loss_rate_lo95
    · rw [if_pos hcond]
      exact ⟨by simpa using hcond, fun _ => rfl⟩
    · rw [if_neg hcond]
      constructor
      · simp only [Bool.false_eq_true, false_iff]
        exact hcond
      · intro h
        simp at h
  refine ⟨main, ?_, ?_⟩
  · have hbm : bestMatch exampleScore 0 [exampleTemplate (65 / 100)] =
        (some (exampleTemplate (65 / 100)), 12 / 10) := by
      unfold bestMatch bestMatchAux
      rw [if_neg (by simp [cooledDown, exampleTemplate])]
      rw [if_pos (by norm_num [exampleScore])]
      rfl
    have h := (main exampleScore 0 [exampleTemplate (65 / 100)]
      (exampleTemplate (65 / 100)) (12 / 10) hbm).1
    rw [h]
    constructor
    · norm_num [min_veto_score]
    · norm_num [min_loss_lb, exampleTemplate]
  · have hbm : bestMatch exampleScore 0 [exampleTemplate (55 / 100)] =
        (some (exampleTemplate (55 / 100)), 12 / 10) := by
      unfold bestMatch bestMatchAux
      rw [if_neg (by simp [cooledDown, exampleTemplate])]
      rw [if_pos (by norm_num [exampleScore])]
      rfl
    have h := (main exampleScore 0 [exampleTemplate (55 / 100)]
      (exampleTemplate (55 / 100)) (12 / 10) hbm).1
    simp only [Bool.not_eq_true] at h ⊢
    rcases hb : (check_candidate_against_templates exampleScore 0
      [exampleTemplate (55 / 100)]).veto with _ | _
    · rfl
    · exfalso
      have := h.1 hb
      norm_num [min_loss_lb, exampleTemplate] at this

theorem claim_C4_witness :
    (check_candidate_against_templates exampleScore 0
        [exampleTemplate (65 / 100)]).veto = true ↔
      (min_veto_score ≤ 12 / 10 ∧
       min_loss_lb ≤ (exampleTemplate (65 / 100)).loss_rate_lo95) := by
  have hbm : bestMatch exampleScore 0 [exampleTemplate (65 / 100)] =
      (some (exampleTemplate (65 / 100)), 12 / 10) := by
    unfold bestMatch bestMatchAux
    rw [if_neg (by simp [cooledDown, exampleTemplate])]
    rw [if_pos (by norm_num [exampleScore])]
    rfl
  exact (claim_C4.1 exampleScore 0 [exampleTemplate (65 / 100)]
    (exampleTemplate (65 / 100)) (12 / 10) hbm).1

structure TemplateBlob where
  setup_type : ℕ
  severity_sum : ℚ
  samples : ℕ
  loss_rate_lo95 : ℚ
  creation_timestamp : ℤ
  last_match_timestamp : Option ℤ
deriving Repr, DecidableEq

def template_from_blob (tid : ℕ) (b : TemplateBlob) : NoTradeTemplate :=
  { template_id := tid, setup_type := b.setup_type, severity_sum := b.severity_sum,
    samples := b.samples, total_checks := 0, vetoes := 0, passed := 0,
    true_saves := 0, false_vetoes := 0, post_pass_losses := 0, post_pass_wins := 0,
    creation_timestamp := b.creation_timestamp,
    last_match_timestamp := b.last_match_timestamp,
    cooldown_until := none, loss_rate_lo95 := b.loss_rate_lo95, save_rate_lo95 := 0 }

def import_templates (ts : List NoTradeTemplate) (blobs : List (ℕ × TemplateBlob))
    (maxT : ℕ) : List NoTradeTemplate × ℕ :=
  match blobs with
  | [] => (ts, 0)
  | (tid, b) :: rest =>
    if maxT ≤ ts.length then (ts, 0)
    else
      ((import_templates (ts ++ [template_from_blob tid b]) rest maxT).1,
       (import_templates (ts ++ [template_from_blob tid b]) rest maxT).2 + 1)

def staleBlob : TemplateBlob :=
  { setup_type := 0, severity_sum := 1, samples := 1, loss_rate_lo95 := 7 / 10,
    creation_timestamp := -1000, last_match_timestamp := none }

/-- C9 counterexample: a hard-negative template blob whose creation
timestamp is 1000 days in the past (and with no last-match timestamp) is
imported anyway — `import_templates` performs no staleness check. -/
theorem claim_C9_counterexample :
    180 < (0 : ℤ) - staleBlob.creation_timestamp ∧
    staleBlob.last_match_timestamp = none ∧
    (import_templates [] [(1, staleBlob)] 4000).1 = [template_from_blob 1 staleBlob] ∧
    (import_templates [] [(1, staleBlob)] 4000).2 = 1 := by
  refine ⟨by decide, rfl, ?_, ?_⟩
  · unfold import_templates
    rw [if_neg (by decide)]
    rfl
  · unfold import_templates
    rw [if_neg (by decide)]
    rfl

theorem import_templates_cap (blobs : List (ℕ × TemplateBlob)) :
    ∀ (ts : List NoTradeTemplate) (maxT : ℕ),
      (import_templates ts blobs maxT).1.length ≤ max ts.length maxT := by
  induction blobs with
  | nil =>
    intro ts maxT
    unfold import_templates
    exact le_max_left _ _
  | cons hd rest ih =>
    intro ts maxT
    unfold import_templates
    by_cases hlen : maxT ≤ ts.length
    · rw [if_pos hlen]
      exact le_max_left _ _
    · rw [if_neg hlen]
      show (import_templates (ts ++ [template_from_blob hd.1 hd.2]) rest maxT).1.length ≤
        max ts.length maxT
      have h2 := ih (ts ++ [template_from_blob hd.1 hd.2]) maxT
      simp only [List.length_append, List.length_singleton] at h2
      omega

def stalePatternBlob : PatternMemory.ImportBlob :=
  { total_samples := 5, wins := 2, losses := 3, breakevens := 0, timeouts := 0,
    win_rate := 40, avg_pnl_pts := 0, profit_factor := 0, expectancy := 0,
    ew_win_rate := 0, ew_expectancy := 0, wr_lo95 := 0, wr_hi95 := 0,
    consistency_score := 50, status := PatternMemory.PatternStatus.active,
    promotion_timestamp := none, last_trade_timestamp := -1000,
    trade_ids := [], cooldown_until := none }

/-- C9 (amended): hard-negative import enforces only the max-entity cap
(the store never grows past `max_templates`); entries of any staleness are
imported while under the cap.  Pattern-fingerprint import, by contrast, does
skip entries whose last trade is more than 180 days old. -/
theorem claim_C9_amended :
    (∀ (ts : List NoTradeTemplate) (blobs : List (ℕ × TemplateBlob)) (maxT : ℕ),
      (import_templates ts blobs maxT).1.length ≤ max ts.length maxT) ∧
    (∀ (tid : ℕ) (b : TemplateBlob) (ts : List NoTradeTemplate) (maxT : ℕ),
      ts.length < maxT →
      template_from_blob tid b ∈ (import_templates ts [(tid, b)] maxT).1) ∧
    (∀ (now : ℤ) (b : PatternMemory.ImportBlob)
       (fps : List PatternMemory.Fingerprint) (maxP : ℕ),
      fps.length < maxP → 180 < now - b.last_trade_timestamp →
      PatternMemory.import_patterns now fps [b] maxP = (fps, 0)) := by
  refine ⟨?_, ?_, ?_⟩
  · intro ts blobs maxT
    exact import_templates_cap blobs ts maxT
  · intro tid b ts maxT hlen
    unfold import_templates
    rw [if_neg (by omega)]
    unfold import_templates
    simp
  · intro now b fps maxP hlen hstale
    simp only [PatternMemory.import_patterns]
    rw [if_neg (by omega), if_pos hstale]

theorem claim_C9_amended_witness :
    template_from_blob 1 staleBlob ∈ (import_templates [] [(1, staleBlob)] 4000).1 ∧
    PatternMemory.import_patterns 0 [] [stalePatternBlob] 2000 = ([], 0) :=
  ⟨claim_C9_amended.2.1 1 staleBlob [] 4000 (by norm_num),
   claim_C9_amended.2.2 0 stalePatternBlob [] 2000 (by norm_num)
     (by norm_num [stalePatternBlob])⟩

end HardNegatives

/-! ### Trade simulator (src/simulation/realistic_sim.py) -/

namespace Simulator

inductive ExitReason
| take_profit
| stop_loss
| breakeven
| trailing_stop
| timeout
| manual
deriving Repr, DecidableEq

inductive TradeDirection
| long
| short
deriving Repr, DecidableEq

structure Bar where
  op : ℚ
  hi : ℚ
  lo : ℚ
  cl : ℚ
deriving Repr, DecidableEq

structure SimConfig where
  tp_points : ℚ
  sl_points : ℚ
  be_threshold : ℚ
  trail_start : ℚ
  trail_distance : ℚ
  timeout_minutes : ℚ
  tick_size : ℚ
  contract_size : ℚ
deriving Repr, DecidableEq

def commission_per_trade : ℚ := 62 / 100

def base_slippage_ticks : ℚ := 1 / 2

structure TradeState where
  entry_price : ℚ
  current_sl : ℚ
  current_tp : ℚ
  be_moved : Bool
  trail_active : Bool
  mae : ℚ
  mfe : ℚ
  time_to_be : Option ℤ
  time_to_target : Option ℤ
deriving Repr, DecidableEq

structure TradeResult where
  entry_price : ℚ
  exit_price : ℚ
  entry_time : ℤ
  exit_time : ℤ
  direction : TradeDirection
  exit_reason : ExitReason
  pnl_points : ℚ
  pnl_dollars : ℚ
  mae : ℚ
  mfe : ℚ
  time_to_target_seconds : Option ℤ
  time_to_be_seconds : Option ℤ
  commission_paid : ℚ
  slippage_points : ℚ
  gross_pnl_points : ℚ
  net_pnl_points : ℚ
deriving Repr, DecidableEq

def apply_entry_slippage (cfg : SimConfig) (entry_price : ℚ) (dir : TradeDirection)
    (first_bar : Option Bar) : ℚ :=
  let s0 := base_slippage_ticks * cfg.tick_size
  let slip :=
    match first_bar with
    | some b => if 2 < b.hi - b.lo then s0 * (3 / 2) else s0
    | none => s0
  match dir with
  | TradeDirection.long => entry_price + slip
  | TradeDirection.short => entry_price - slip

structure Brackets where
  tp : ℚ
  initial_sl : ℚ
deriving Repr, DecidableEq

def calculate_brackets (cfg : SimConfig) (fill_price : ℚ) (dir : TradeDirection) :
    Brackets :=
  match dir with
  | TradeDirection.long =>
    { tp := fill_price + cfg.tp_points, initial_sl := fill_price - cfg.sl_points }
  | TradeDirection.short =>
    { tp := fill_price - cfg.tp_points, initial_sl := fill_price + cfg.sl_points }

def isStopTypeExit (r : ExitReason) : Prop :=
  r = ExitReason.stop_loss ∨ r = ExitReason.breakeven ∨
  r = ExitReason.trailing_stop ∨ r = ExitReason.timeout

instance (r : ExitReason) : Decidable (isStopTypeExit r) := by
  unfold isStopTypeExit
  infer_instance

def exitSlippage (cfg : SimConfig) (exit_reason : ExitReason) : ℚ :=
  if isStopTypeExit exit_reason then base_slippage_ticks * cfg.tick_size else 0

def finalExitPrice (cfg : SimConfig) (exit_price : ℚ) (exit_reason : ExitReason)
    (dir : TradeDirection) : ℚ :=
  if isStopTypeExit exit_reason then
    (match dir with
     | TradeDirection.long => exit_price - exitSlippage cfg exit_reason
     | TradeDirection.short => exit_price + exitSlippage cfg exit_reason)
  else exit_price

def grossPoints (entry finalp : ℚ) : TradeDirection → ℚ
| TradeDirection.long => finalp - entry
| TradeDirection.short => entry - finalp

def create_trade_result (cfg : SimConfig) (st : TradeState)
    (entry_time exit_time : ℤ) (exit_price : ℚ) (exit_reason : ExitReason)
    (dir : TradeDirection) : TradeResult :=
  { entry_price := st.entry_price,
    exit_price := finalExitPrice cfg exit_price exit_reason dir,
    entry_time := entry_time,
    exit_time := exit_time,
    direction := dir,
    exit_reason := exit_reason,
    pnl_points := grossPoints st.entry_price (finalExitPrice cfg exit_price exit_reason dir) dir,
    pnl_dollars :=
      grossPoints st.entry_price (finalExitPrice cfg exit_price exit_reason dir) dir *
        cfg.contract_size - commission_per_trade,
    mae := st.mae,
    mfe := st.mfe,
    time_to_target_seconds := st.time_to_target,
    time_to_be_seconds := st.time_to_be,
    commission_paid := commission_per_trade,
    slippage_points := base_slippage_ticks * cfg.tick_size + exitSlippage cfg exit_reason,
    gross_pnl_points := grossPoints st.entry_price (finalExitPrice cfg exit_price exit_reason dir) dir,
    net_pnl_points :=
      grossPoints st.entry_price (finalExitPrice cfg exit_price exit_reason dir) dir -
        commission_per_trade / cfg.contract_size }

def update_mae_mfe (b : Bar) (st : TradeState) (dir : TradeDirection) : TradeState :=
  match dir with
  | TradeDirection.long =>
    { st with mfe := max st.mfe (b.hi - st.entry_price),
              mae := max st.mae (st.entry_price - b.lo) }
  | TradeDirection.short =>
    { st with mfe := max st.mfe (st.entry_price - b.lo),
              mae := max st.mae (b.hi - st.entry_price) }

def check_breakeven (cfg : SimConfig) (b : Bar) (st : TradeState)
    (dir : TradeDirection) (elapsed_seconds : ℤ) : TradeState :=
  match dir with
  | TradeDirection.long =>
    if st.entry_price + cfg.be_threshold ≤ b.hi then
      { st with current_sl := st.entry_price, be_moved := true,
                time_to_be := some elapsed_seconds }
    else st
  | TradeDirection.short =>
    if b.lo ≤ st.entry_price - cfg.be_threshold then
      { st with current_sl := st.entry_price, be_moved := true,
                time_to_be := some elapsed_seconds }
    else st

def check_trailing_activation (cfg : SimConfig) (b : Bar) (st : TradeState)
    (dir : TradeDirection) : TradeState :=
  match dir with
  | TradeDirection.long =>
    if st.entry_price + cfg.trail_start ≤ b.hi then { st with trail_active := true }
    else st
  | TradeDirection.short =>
    if b.lo ≤ st.entry_price - cfg.trail_start then { st with trail_active := true }
    else st

def update_trailing_stop (cfg : SimConfig) (b : Bar) (st : TradeState)
    (dir : TradeDirection) : TradeState :=
  match dir with
  | TradeDirection.long =>
    { st with current_sl := max st.current_sl (b.hi - cfg.trail_distance) }
  | TradeDirection.short =>
    { st with current_sl := min st.current_sl (b.lo + cfg.trail_distance) }

def is_stop_hit (price stop : ℚ) (dir : TradeDirection) : Prop :=
  match dir with
  | TradeDirection.long => price ≤ stop
  | TradeDirection.short => stop ≤ price

instance (price stop : ℚ) (dir : TradeDirection) : Decidable (is_stop_hit price stop dir) := by
  unfold is_stop_hit
  cases dir <;> infer_instance

def is_target_hit (price target : ℚ) (dir : TradeDirection) : Prop :=
  match dir with
  | TradeDirection.long => target ≤ price
  | TradeDirection.short => price ≤ target

instance (price target : ℚ) (dir : TradeDirection) : Decidable (is_target_hit price target dir) := by
  unfold is_target_hit
  cases dir <;> infer_instance

def intrabar_prices (b : Bar) : List ℚ :=
  [b.op] ++
  (if b.hi ≠ b.op ∧ b.lo ≠ b.op then (if b.op < b.cl then [b.lo, b.hi] else [b.hi, b.lo])
   else if b.hi ≠ b.op then [b.hi]
   else if b.lo ≠ b.op then [b.lo]
   else []) ++
  [b.cl]

def stopExitReason (st : TradeState) : ExitReason :=
  if st.trail_active then ExitReason.trailing_stop
  else if st.be_moved then ExitReason.breakeven
  else ExitReason.stop_loss

def walk_prices (cfg : SimConfig) (st : TradeState) (dir : TradeDirection)
    (timestamp entry_time : ℤ) : List ℚ → Option TradeResult
| [] => none
| price :: rest =>
  if is_stop_hit price st.current_sl dir then
    some (create_trade_result cfg st entry_time timestamp st.current_sl
      (stopExitReason st) dir)
  else if is_target_hit price st.current_tp dir then
    some (create_trade_result cfg
      { st with time_to_target :=
          (match st.time_to_target with
           | none => some ((timestamp - entry_time) * 60)
           | some v => some v) }
      entry_time timestamp st.current_tp ExitReason.take_profit dir)
  else walk_prices cfg st dir timestamp entry_time rest

def process_bar (cfg : SimConfig) (st : TradeState) (dir : TradeDirection)
    (timestamp entry_time : ℤ) (b : Bar) : TradeState × Option TradeResult :=
  let s1 := update_mae_mfe b st dir
  let s2 :=
    if ¬ s1.be_moved then
      check_breakeven cfg b s1 dir ((timestamp - entry_time) * 60)
    else s1
  let s3 :=
    if ¬ s2.trail_active ∧ s2.be_moved then check_trailing_activation cfg b s2 dir
    else s2
  let s4 := if s3.trail_active then update_trailing_stop cfg b s3 dir else s3
  (s4, walk_prices cfg s4 dir timestamp entry_time (intrabar_prices b))

def is_timeout (cfg : SimConfig) (entry_time current_time : ℤ) : Prop :=
  cfg.timeout_minutes ≤ ((current_time - entry_time : ℤ) : ℚ)

instance (cfg : SimConfig) (entry_time current_time : ℤ) :
    Decidable (is_timeout cfg entry_time current_time) := by
  unfold is_timeout
  infer_instance

def sim_loop (cfg : SimConfig) (dir : TradeDirection) (entry_time : ℤ)
    (st : TradeState) (last : ℤ × Bar) : List (ℤ × Bar) → TradeResult
| [] => create_trade_result cfg st entry_time last.1 last.2.cl ExitReason.manual dir
| (ts, b) :: rest =>
  if is_timeout cfg entry_time ts then
    create_trade_result cfg st entry_time ts b.cl ExitReason.timeout dir
  else
    match process_bar cfg st dir ts entry_time b with
    | (_, some res) => res
    | (st2, none) => sim_loop cfg dir entry_time st2 (ts, b) rest

def simulate_trade (cfg : SimConfig) (entry_price : ℚ) (entry_time : ℤ)
    (dir : TradeDirection) (bars : List (ℤ × Bar)) : Option TradeResult :=
  match bars with
  | [] => none
  | first :: _ =>
    let fill := apply_entry_slippage cfg entry_price dir (some first.2)
    let br := calculate_brackets cfg fill dir
    some (sim_loop cfg dir entry_time
      { entry_price := fill, current_sl := br.initial_sl, current_tp := br.tp,
        be_moved := false, trail_active := false, mae := 0, mfe := 0,
        time_to_be := none, time_to_target := none }
      first bars)

def exCfg : SimConfig :=
  { tp_points := 1, sl_points := 5 / 4, be_threshold := 10, trail_start := 10,
    trail_distance := 1, timeout_minutes := 100, tick_size := 1 / 4,
    contract_size := 5 }

def exBar : Bar :=
  { op := 100, hi := 1002 / 10, lo := 999 / 10, cl := 1001 / 10 }

theorem create_result_spec (cfg : SimConfig) (st : TradeState)
    (entry_time exit_time : ℤ) (exit_price : ℚ) (reason : ExitReason)
    (dir : TradeDirection) :
    (isStopTypeExit reason →
      (create_trade_result cfg st entry_time exit_time exit_price reason dir).exit_price =
        (match dir with
         | TradeDirection.long => exit_price - base_slippage_ticks * cfg.tick_size
         | TradeDirection.short => exit_price + base_slippage_ticks * cfg.tick_size) ∧
      (create_trade_result cfg st entry_time exit_time exit_price reason dir).slippage_points =
        2 * (base_slippage_ticks * cfg.tick_size)) ∧
    (¬ isStopTypeExit reason →
      (create_trade_result cfg st entry_time exit_time exit_price reason dir).exit_price =
        exit_price ∧
      (create_trade_result cfg st entry_time exit_time exit_price reason dir).slippage_points =
        base_slippage_ticks * cfg.tick_size) ∧
    (create_trade_result cfg st entry_time exit_time exit_price reason dir).gross_pnl_points =
      (match dir with
       | TradeDirection.long =>
         (create_trade_result cfg st entry_time exit_time exit_price reason dir).exit_price -
           st.entry_price
       | TradeDirection.short =>
         st.entry_price -
           (create_trade_result cfg st entry_time exit_time exit_price reason dir).exit_price) ∧
    (create_trade_result cfg st entry_time exit_time exit_price reason dir).pnl_points =
      (create_trade_result cfg st entry_time exit_time exit_price reason dir).gross_pnl_points ∧
    (create_trade_result cfg st entry_time exit_time exit_price reason dir).net_pnl_points =
      (create_trade_result cfg st entry_time exit_time exit_price reason dir).gross_pnl_points -
        commission_per_trade / cfg.contract_size ∧
    (create_trade_result cfg st entry_time exit_time exit_price reason dir).pnl_dollars =
      (create_trade_result cfg st entry_time exit_time exit_price reason dir).gross_pnl_points *
        cfg.contract_size - commission_per_trade ∧
    (create_trade_result cfg st entry_time exit_time exit_price reason dir).commission_paid =
      commission_per_trade := by
  refine ⟨?_, ?_, ?_, rfl, rfl, rfl, rfl⟩
  · intro h
    constructor
    · show finalExitPrice cfg exit_price reason dir = _
      unfold finalExitPrice exitSlippage
      rw [if_pos h, if_pos h]
    · show base_slippage_ticks * cfg.tick_size + exitSlippage cfg reason = _
      unfold exitSlippage
      rw [if_pos h]
      ring
  · intro h
    constructor
    · show finalExitPrice cfg exit_price reason dir = _
      unfold finalExitPrice
      rw [if_neg h]
    · show base_slippage_ticks * cfg.tick_size + exitSlippage cfg reason = _
      unfold exitSlippage
      rw [if_neg h]
      ring
  · show grossPoints st.entry_price (finalExitPrice cfg exit_price reason dir) dir = _
    cases dir <;> rfl

/-- C6 counterexample: a trade force-closed at the final bar's close
(`MANUAL`) receives NO exit slippage — the exit price equals the bar close
and total slippage is the entry half-tick only — contradicting the claim
that every non-TAKE_PROFIT exit, including MANUAL, is slipped against the
trader. -/
theorem claim_C6_counterexample :
    ((simulate_trade exCfg 100 0 TradeDirection.long [(1, exBar)]).map
      TradeResult.exit_reason = some ExitReason.manual) ∧
    ((simulate_trade exCfg 100 0 TradeDirection.long [(1, exBar)]).map
      TradeResult.exit_price = some (1001 / 10)) ∧
    ((simulate_trade exCfg 100 0 TradeDirection.long [(1, exBar)]).map
      TradeResult.slippage_points = some (1 / 8)) ∧
    (1001 / 10 : ℚ) ≠ 1001 / 10 - base_slippage_ticks * exCfg.tick_size ∧
    (1 / 8 : ℚ) ≠ 1 / 8 + base_slippage_ticks * exCfg.tick_size := by
  have hman : ¬ isStopTypeExit ExitReason.manual := by decide
  have hsim : simulate_trade exCfg 100 0 TradeDirection.long [(1, exBar)] =
      some (create_trade_result exCfg
        { entry_price := 801 / 8, current_sl := 791 / 8, current_tp := 809 / 8,
          be_moved := false, trail_active := false,
          mae := 801 / 8 - 999 / 10, mfe := 1002 / 10 - 801 / 8,
          time_to_be := none, time_to_target := none }
        0 1 (1001 / 10) ExitReason.manual TradeDirection.long) := by
    unfold simulate_trade apply_entry_slippage calculate_brackets base_slippage_ticks
    norm_num [exCfg, exBar, sim_loop, is_timeout, process_bar, update_mae_mfe,
      check_breakeven, check_trailing_activation, update_trailing_stop,
      walk_prices, intrabar_prices, is_stop_hit, is_target_hit, stopExitReason]
  have hspec := create_result_spec exCfg
    { entry_price := 801 / 8, current_sl := 791 / 8, current_tp := 809 / 8,
      be_moved := false, trail_active := false,
      mae := 801 / 8 - 999 / 10, mfe := 1002 / 10 - 801 / 8,
      time_to_be := none, time_to_target := none }
    0 1 (1001 / 10) ExitReason.manual TradeDirection.long
  have hx := hspec.2.1 hman
  rw [hsim]
  simp only [Option.map_some']
  refine ⟨rfl, ?_, ?_, ?_, ?_⟩
  · rw [hx.1]
  · rw [hx.2]
    norm_num [base_slippage_ticks, exCfg]
  · norm_num [base_slippage_ticks, exCfg]
  · norm_num [base_slippage_ticks, exCfg]

/-- C6 (amended): the fixed exit slippage is applied against the trader
(subtracted from a long's exit, added to a short's) exactly for the
stop-type exits STOP_LOSS, BREAKEVEN, TRAILING_STOP and TIMEOUT; TAKE_PROFIT
and the MANUAL force-close get none.  The round-trip commission is always
subtracted, and gross points, net points and net dollars are all retrievable
from the result. -/
theorem claim_C6_amended (cfg : SimConfig) (st : TradeState)
    (entry_time exit_time : ℤ) (exit_price : ℚ) (reason : ExitReason)
    (dir : TradeDirection) :
    (isStopTypeExit reason →
      (create_trade_result cfg st entry_time exit_time exit_price reason dir).exit_price =
        (match dir with
         | TradeDirection.long => exit_price - base_slippage_ticks * cfg.tick_size
         | TradeDirection.short => exit_price + base_slippage_ticks * cfg.tick_size) ∧
      (create_trade_result cfg st entry_time exit_time exit_price reason dir).slippage_points =
        2 * (base_slippage_ticks * cfg.tick_size)) ∧
    (¬ isStopTypeExit reason →
      (create_trade_result cfg st entry_time exit_time exit_price reason dir).exit_price =
        exit_price ∧
      (create_trade_result cfg st entry_time exit_time exit_price reason dir).slippage_points =
        base_slippage_ticks * cfg.tick_size) ∧
    (create_trade_result cfg st entry_time exit_time exit_price reason dir).gross_pnl_points =
      (match dir with
       | TradeDirection.long =>
         (create_trade_result cfg st entry_time exit_time exit_price reason dir).exit_price -
           st.entry_price
       | TradeDirection.short =>
         st.entry_price -
           (create_trade_result cfg st entry_time exit_time exit_price reason dir).exit_price) ∧
    (create_trade_result cfg st entry_time exit_time exit_price reason dir).pnl_points =
      (create_trade_result cfg st entry_time exit_time exit_price reason dir).gross_pnl_points ∧
    (create_trade_result cfg st entry_time exit_time exit_price reason dir).net_pnl_points =
      (create_trade_result cfg st entry_time exit_time exit_price reason dir).gross_pnl_points -
        commission_per_trade / cfg.contract_size ∧
    (create_trade_result cfg st entry_time exit_time exit_price reason dir).pnl_dollars =
      (create_trade_result cfg st entry_time exit_time exit_price reason dir).gross_pnl_points *
        cfg.contract_size - commission_per_trade ∧
    (create_trade_result cfg st entry_time exit_time exit_price reason dir).commission_paid =
      commission_per_trade :=
  create_result_spec cfg st entry_time exit_time exit_price reason dir

theorem claim_C6_amended_witness :
    isStopTypeExit ExitReason.timeout ∧
    ((create_trade_result exCfg
        { entry_price := 801 / 8, current_sl := 791 / 8, current_tp := 809 / 8,
          be_moved := false, trail_active := false, mae := 0, mfe := 0,
          time_to_be := none, time_to_target := none }
        0 1 (1001 / 10) ExitReason.timeout TradeDirection.long).exit_price =
      (match TradeDirection.long with
       | TradeDirection.long => 1001 / 10 - base_slippage_ticks * exCfg.tick_size
       | TradeDirection.short => 1001 / 10 + base_slippage_ticks * exCfg.tick_size) ∧
     (create_trade_result exCfg
        { entry_price := 801 / 8, current_sl := 791 / 8, current_tp := 809 / 8,
          be_moved := false, trail_active := false, mae := 0, mfe := 0,
          time_to_be := none, time_to_target := none }
        0 1 (1001 / 10) ExitReason.timeout TradeDirection.long).slippage_points =
      2 * (base_slippage_ticks * exCfg.tick_size)) :=
  ⟨by decide,
   (claim_C6_amended exCfg
      { entry_price := 801 / 8, current_sl := 791 / 8, current_tp := 809 / 8,
        be_moved := false, trail_active := false, mae := 0, mfe := 0,
        time_to_be := none, time_to_target := none }
      0 1 (1001 / 10) ExitReason.timeout TradeDirection.long).1 (by decide)⟩

end Simulator

end Emini
